import Mathlib

/-!
Verification of the Chutes-Proxy relay (src/proxy.py) against its
natural-language specification.

The Python source is a small FastAPI reverse proxy.  We give a shallow
embedding: JSON values are an inductive type mirroring what Python's
`json` module produces (dicts are association lists with unique keys,
so dictionary access is `List.lookup`); the async handler
`proxy_to_chutes` becomes a pure function from the environment, the
inbound request and the upstream's behaviour to a `HandlerRun` record
that captures the informational log, the outbound requests built and
sent, and the final outcome (a returned value or a raised exception).
Library calls whose internals live outside the repository
(`request.json()`, `response.json()`) are modelled as parse oracles:
an `Option Json` field carrying the parse result, `none` meaning the
parse raised.
-/

namespace ChutesProxy

/-- JSON values as parsed by Python's `json` module.  Numbers are
modelled as integers (the claims under study only depend on zero vs
non-zero truthiness, which agrees with Python for `int` and `float`
inputs of integral value).  An `obj` is a parsed Python dict: its key
list is duplicate-free, and field access is first-match lookup. -/
inductive Json where
  | null
  | bool (b : Bool)
  | num (n : Int)
  | str (s : String)
  | arr (elems : List Json)
  | obj (fields : List (String × Json))

/-- Python truthiness of a JSON value, as used by `if is_streaming:`.
`None`, `False`, `0`, `""`, `[]` and `{}` are falsy; everything else
is truthy. -/
def Json.truthy : Json → Bool
  | .null => false
  | .bool b => b
  | .num n => n != 0
  | .str s => s != ""
  | .arr elems => !elems.isEmpty
  | .obj fields => !fields.isEmpty

/-- Whether a JSON value is an object (a Python dict).  Only dicts have
the `.get` method; calling `.get` on any other parsed value raises
`AttributeError`. -/
def Json.isObj : Json → Bool
  | .obj _ => true
  | _ => false

/-- Python `dict.get(key, default)` on a parsed JSON object. -/
def dictGet (fields : List (String × Json)) (key : String) (default : Json) : Json :=
  match fields.lookup key with
  | some v => v
  | none => default

/-- ASCII lowercasing of a character (header names are ASCII). -/
def asciiLowerChar (c : Char) : Char :=
  if 65 ≤ c.toNat ∧ c.toNat ≤ 90 then Char.ofNat (c.toNat + 32) else c

/-- ASCII lowercasing of a string, for case-insensitive header
comparison. -/
def asciiLower (s : String) : String :=
  ⟨s.data.map asciiLowerChar⟩

/-- `httpx` header lookup `headers.get(name)`: case-insensitive,
`none` when the header is absent. -/
def headersGet (hs : List (String × String)) (key : String) : Option String :=
  (hs.find? (fun p => asciiLower p.fst == asciiLower key)).map Prod.snd

/-- Python falsiness of `os.getenv`'s result: `None` (variable unset)
and the empty string are both falsy, so `if not api_key_to_use:` fires
on either. -/
def optStrFalsy : Option String → Bool
  | none => true
  | some s => s == ""

/-- The fixed upstream URL (`CHUTES_API_URL` in proxy.py). -/
def CHUTES_API_URL : String := "https://llm.chutes.ai/v1/chat/completions"

/-- The process environment as seen through `os.getenv`: the one
variable the source reads. -/
structure Env where
  chutes_api_token : Option String

/-- An inbound HTTP request.  `jsonParse` is the oracle for
`await request.json()`: `some v` when the body parses to `v`, `none`
when parsing raises.  The inbound headers are carried but — like the
source, which only mentions them in a comment — never read. -/
structure InboundRequest where
  headers : List (String × String)
  jsonParse : Option Json

/-- The upstream's behaviour for the single outbound call a run makes:
its HTTP status, response headers, the byte chunks `aiter_bytes()`
yields (bytes as naturals), and the oracle for `response.json()`. -/
structure UpstreamResponse where
  status : Nat
  headers : List (String × String)
  chunks : List (List Nat)
  jsonBody : Option Json

/-- An outbound request as assembled by `client.build_request`.  The
source passes `timeout=300.0`; the value is an exact integer, recorded
in seconds. -/
structure HttpRequestOut where
  method : String
  url : String
  jsonBody : Json
  headers : List (String × String)
  timeoutSeconds : Nat

/-- The headers dict built at lines 52-55 of proxy.py. -/
def outboundHeaders (key : String) : List (String × String) :=
  [("Content-Type", "application/json"),
   ("Authorization", "Bearer " ++ key)]

/-- The outbound request built at lines 61-67 of proxy.py. -/
def builtReq (key : String) (body : Json) : HttpRequestOut :=
  { method := "POST"
    url := CHUTES_API_URL
    jsonBody := body
    headers := outboundHeaders key
    timeoutSeconds := 300 }

/-- Informational log events emitted by the handler, in order. -/
inductive LogEvent where
  | requestData (j : Json)
  | errorTokenMissing
  | usingApiKey
  | streamChunk (bytes : List Nat)
  | rawResponse (j : Json)

/-- Exceptions the handler can let escape. -/
inductive HandlerError where
  | jsonParseError
  | valueError (msg : String)
  | attributeError (attr : String)
  | upstreamJsonError

/-- What the handler returns on success: either a plain JSON value
(non-streaming path, line 90) or a `StreamingResponse` holding the
chunk sequence and the media type copied from upstream (line 82). -/
inductive HandlerReturn where
  | jsonValue (j : Json)
  | streamingResponse (chunks : List (List Nat)) (mediaType : Option String)

/-- One complete run of the handler: the log it wrote, the outbound
requests it built, the requests it sent (paired with the `stream=`
flag passed to `client.send`), and its outcome. -/
structure HandlerRun where
  log : List LogEvent
  built : List HttpRequestOut
  sent : List (HttpRequestOut × Bool)
  result : Except HandlerError HandlerReturn

/-- Shallow embedding of `proxy_to_chutes` (proxy.py lines 26-90),
step by step in source order: parse the body (37), log it (38), read
`CHUTES_API_TOKEN` from the environment at call time (44), raise
`ValueError` if it is unset or empty (46-48), log key use (50), build
the outbound headers (52-55), read the `stream` flag with `dict.get`
(58) — an `AttributeError` if the parsed body is not a dict — build
the outbound request (61-67), then branch: streaming sends with
`stream=True`, logs every chunk and returns a `StreamingResponse` of
exactly the upstream chunks with the upstream's content-type (70-82);
otherwise it sends normally, parses the response as JSON, logs it and
returns the parsed value (85-90). -/
def proxy_to_chutes (env : Env) (request : InboundRequest)
    (upstream : UpstreamResponse) : HandlerRun :=
  match request.jsonParse with
  | none =>
      { log := [], built := [], sent := [], result := .error .jsonParseError }
  | some request_data =>
      let log0 : List LogEvent := [.requestData request_data]
      let api_key_to_use := env.chutes_api_token
      if optStrFalsy api_key_to_use then
        { log := log0 ++ [.errorTokenMissing]
          built := []
          sent := []
          result := .error (.valueError "CHUTES_API_TOKEN not found in .env file.") }
      else
        let key := api_key_to_use.getD ""
        let log1 := log0 ++ [.usingApiKey]
        match request_data with
        | .obj fields =>
            let is_streaming := dictGet fields "stream" (.bool false)
            let req := builtReq key (.obj fields)
            if is_streaming.truthy then
              { log := log1 ++ upstream.chunks.map .streamChunk
                built := [req]
                sent := [(req, true)]
                result := .ok (.streamingResponse upstream.chunks
                  (headersGet upstream.headers "content-type")) }
            else
              match upstream.jsonBody with
              | none =>
                  { log := log1
                    built := [req]
                    sent := [(req, false)]
                    result := .error .upstreamJsonError }
              | some response_data =>
                  { log := log1 ++ [.rawResponse response_data]
                    built := [req]
                    sent := [(req, false)]
                    result := .ok (.jsonValue response_data) }
        | _ =>
            { log := log1, built := [], sent := [], result := .error (.attributeError "get") }

/-- FastAPI's response assembly for values this app returns: a plain
returned value is serialized with status 200, and a
`StreamingResponse` constructed without an explicit status also
defaults to 200.  The upstream status never enters. -/
def servedStatus : HandlerReturn → Nat
  | .jsonValue _ => 200
  | .streamingResponse _ _ => 200

/-- The route table registered at module import.  Importing the module
reads no environment variable: `os.getenv("CHUTES_API_TOKEN")` occurs
only inside the handler body, so startup succeeds for every
environment. -/
structure App where
  routes : List (String × String)

/-- Module initialization (proxy.py top level): registers the routes
and touches nothing in the environment besides `load_dotenv`. -/
def appInit (_ : Env) : App :=
  { routes :=
      [("POST", "/v1/chat/completions"), ("GET", "/"), ("GET", "/v1/models"),
       ("GET", "/models"), ("POST", "/chat/completions")] }

/-- `GET /` (proxy.py lines 93-95). -/
def health_check : Json :=
  .obj [("status", .str "Proxy for Chutes AI is online!")]

/-- `GET /v1/models` (proxy.py lines 96-127): the hardcoded model
list. -/
def get_manual_models : Json :=
  .obj [("data", .arr
    [.obj [("id", .str "casperhansen/deepseek-r1-distill-qwen-32b-awq")],
     .obj [("id", .str "chutesai/Devstral-Small-2505")],
     .obj [("id", .str "chutesai/Llama-4-Maverick-17B-128E-Instruct-FP8")],
     .obj [("id", .str "chutesai/Llama-4-Scout-17B-16E-Instruct")],
     .obj [("id", .str "chutesai/Mistral-Small-3.2-24B-Instruct-2506")],
     .obj [("id", .str "deepseek-ai/DeepSeek-R1-0528")],
     .obj [("id", .str "deepseek-ai/DeepSeek-R1-Distill-Llama-70B")],
     .obj [("id", .str "LGAI-EXAONE/EXAONE-Deep-32B")],
     .obj [("id", .str "LumiOpen/Llama-Poro-2-70B-Instruct")],
     .obj [("id", .str "microsoft/MAI-DS-R1-FP8")],
     .obj [("id", .str "MiniMaxAI/MiniMax-M1-80k")],
     .obj [("id", .str "moonshotai/Kimi-Dev-72B")],
     .obj [("id", .str "NousResearch/DeepHermes-3-Mistral-24B-Preview")],
     .obj [("id", .str "OpenGVLab/InternVL3-78B")],
     .obj [("id", .str "Qwen/Qwen2.5-Coder-32B-Instruct")],
     .obj [("id", .str "Qwen/Qwen2.5-VL-72B-Instruct")],
     .obj [("id", .str "Qwen/Qwen3-235B-A22B")],
     .obj [("id", .str "RekaAI/reka-flash-3")],
     .obj [("id", .str "Salesforce/Llama-xLAM-2-70b-fc-r")],
     .obj [("id", .str "TheDrummer/Cydonia-24B-v2.1")],
     .obj [("id", .str "thedrummer/skyfall-36b-v2")],
     .obj [("id", .str "tplr/TEMPLAR-I")],
     .obj [("id", .str "tngtech/DeepSeek-R1T-Chimera")],
     .obj [("id", .str "unsloth/Mistral-Nemo-Instruct-2407")]])]

/-- `GET /models` (proxy.py lines 129-134): awaits and returns
`get_manual_models()` unchanged. -/
def get_manual_models_alias : Json :=
  get_manual_models

/-- `POST /chat/completions` (proxy.py lines 137-142): awaits and
returns `proxy_to_chutes(request)` unchanged. -/
def proxy_to_chutes_no_v1 (env : Env) (request : InboundRequest)
    (upstream : UpstreamResponse) : HandlerRun :=
  proxy_to_chutes env request upstream

/-- A concrete upstream used by the witnesses: status 502, an
event-stream content type, two chunks, and a JSON-parsable body. -/
def upEx : UpstreamResponse :=
  { status := 502
    headers := [("content-type", "text/event-stream")]
    chunks := [[100, 97], [116, 97]]
    jsonBody := some (.obj [("ok", .bool true)]) }

/-! ### Shape lemmas: one per control-flow branch of the handler -/

/-- A malformed inbound body makes `request.json()` raise before
anything else happens: empty log, nothing built, nothing sent. -/
theorem proxy_run_malformed (env : Env) (hdrs : List (String × String))
    (up : UpstreamResponse) :
    proxy_to_chutes env ⟨hdrs, none⟩ up =
      { log := [], built := [], sent := [], result := .error .jsonParseError } := by
  rfl

/-- With a falsy token (unset or empty), a parsed body is logged and
then the `ValueError` is raised; nothing is built or sent. -/
theorem proxy_run_no_token (t : Option String) (ht : optStrFalsy t = true)
    (hdrs : List (String × String)) (j : Json) (up : UpstreamResponse) :
    proxy_to_chutes ⟨t⟩ ⟨hdrs, some j⟩ up =
      { log := [.requestData j, .errorTokenMissing]
        built := []
        sent := []
        result := .error (.valueError "CHUTES_API_TOKEN not found in .env file.") } := by
  simp [proxy_to_chutes, ht]

/-- With a non-empty token but a parsed body that is not a dict, the
`.get` call raises `AttributeError` after the body was logged. -/
theorem proxy_run_non_obj (tok : String) (htok : (tok == "") = false)
    (hdrs : List (String × String)) (j : Json) (hj : j.isObj = false)
    (up : UpstreamResponse) :
    proxy_to_chutes ⟨some tok⟩ ⟨hdrs, some j⟩ up =
      { log := [.requestData j, .usingApiKey]
        built := []
        sent := []
        result := .error (.attributeError "get") } := by
  cases j <;> simp_all [proxy_to_chutes, optStrFalsy, Json.isObj]

/-- With a non-empty token, a dict body and a truthy `stream` value,
the handler sends once with `stream=True` and returns a
`StreamingResponse` of exactly the upstream chunks, with the
upstream's content-type. -/
theorem proxy_run_streaming (tok : String) (htok : (tok == "") = false)
    (hdrs : List (String × String)) (fields : List (String × Json))
    (hs : (dictGet fields "stream" (.bool false)).truthy = true)
    (up : UpstreamResponse) :
    proxy_to_chutes ⟨some tok⟩ ⟨hdrs, some (.obj fields)⟩ up =
      { log := [.requestData (.obj fields), .usingApiKey] ++ up.chunks.map .streamChunk
        built := [builtReq tok (.obj fields)]
        sent := [(builtReq tok (.obj fields), true)]
        result := .ok (.streamingResponse up.chunks
          (headersGet up.headers "content-type")) } := by
  simp [proxy_to_chutes, optStrFalsy, htok, hs]

/-- With a non-empty token, a dict body, a falsy `stream` value and an
upstream body that parses to `j`, the handler sends once (without
streaming), logs the parsed response and returns it. -/
theorem proxy_run_buffered (tok : String) (htok : (tok == "") = false)
    (hdrs : List (String × String)) (fields : List (String × Json))
    (hs : (dictGet fields "stream" (.bool false)).truthy = false)
    (up : UpstreamResponse) (j : Json) (hj : up.jsonBody = some j) :
    proxy_to_chutes ⟨some tok⟩ ⟨hdrs, some (.obj fields)⟩ up =
      { log := [.requestData (.obj fields), .usingApiKey, .rawResponse j]
        built := [builtReq tok (.obj fields)]
        sent := [(builtReq tok (.obj fields), false)]
        result := .ok (.jsonValue j) } := by
  simp [proxy_to_chutes, optStrFalsy, htok, hs, hj]

/-- With a non-empty token, a dict body, a falsy `stream` value and an
upstream body that fails to parse, `response.json()` raises after the
single send. -/
theorem proxy_run_buffered_badjson (tok : String) (htok : (tok == "") = false)
    (hdrs : List (String × String)) (fields : List (String × Json))
    (hs : (dictGet fields "stream" (.bool false)).truthy = false)
    (up : UpstreamResponse) (hj : up.jsonBody = none) :
    proxy_to_chutes ⟨some tok⟩ ⟨hdrs, some (.obj fields)⟩ up =
      { log := [.requestData (.obj fields), .usingApiKey]
        built := [builtReq tok (.obj fields)]
        sent := [(builtReq tok (.obj fields), false)]
        result := .error .upstreamJsonError } := by
  simp [proxy_to_chutes, optStrFalsy, htok, hs, hj]

/-- With the token configured, no run ever raises the configuration
`ValueError`: whatever the inbound body and upstream do, the result is
one of the other outcomes.  Used to show the secret check reads the
call-time environment. -/
theorem token_present_no_config_error (tok : String) (htok : (tok == "") = false)
    (hdrs : List (String × String)) (pj : Option Json) (up : UpstreamResponse)
    (msg : String) :
    (proxy_to_chutes ⟨some tok⟩ ⟨hdrs, pj⟩ up).result ≠ .error (.valueError msg) := by
  cases pj with
  | none =>
      rw [proxy_run_malformed]
      exact fun h => HandlerError.noConfusion (Except.error.inj h)
  | some j =>
      cases j with
      | obj fields =>
          cases hs : (dictGet fields "stream" (.bool false)).truthy with
          | true =>
              rw [proxy_run_streaming tok htok hdrs fields hs up]
              exact fun h => Except.noConfusion h
          | false =>
              cases hj : up.jsonBody with
              | none =>
                  rw [proxy_run_buffered_badjson tok htok hdrs fields hs up hj]
                  exact fun h => HandlerError.noConfusion (Except.error.inj h)
              | some j2 =>
                  rw [proxy_run_buffered tok htok hdrs fields hs up j2 hj]
                  exact fun h => Except.noConfusion h
      | null =>
          rw [proxy_run_non_obj tok htok hdrs Json.null rfl up]
          exact fun h => HandlerError.noConfusion (Except.error.inj h)
      | bool b =>
          rw [proxy_run_non_obj tok htok hdrs (Json.bool b) rfl up]
          exact fun h => HandlerError.noConfusion (Except.error.inj h)
      | num n =>
          rw [proxy_run_non_obj tok htok hdrs (Json.num n) rfl up]
          exact fun h => HandlerError.noConfusion (Except.error.inj h)
      | str s =>
          rw [proxy_run_non_obj tok htok hdrs (Json.str s) rfl up]
          exact fun h => HandlerError.noConfusion (Except.error.inj h)
      | arr elems =>
          rw [proxy_run_non_obj tok htok hdrs (Json.arr elems) rfl up]
          exact fun h => HandlerError.noConfusion (Except.error.inj h)

/-! ### Claims -/

/-- Claim C1, counterexample.  The claim says only a boolean-`true`
`stream` value selects the streaming branch.  But the source tests the
raw value with Python truthiness (`if is_streaming:`), so the body
`{"stream": 1}` — whose `stream` value is not the boolean `true` —
also sends with `stream=True`. -/
theorem C1_counterexample :
    (proxy_to_chutes ⟨some "k"⟩ ⟨[], some (.obj [("stream", .num 1)])⟩ upEx).sent =
      [(builtReq "k" (.obj [("stream", .num 1)]), true)] ∧
    Json.num 1 ≠ Json.bool true :=
  ⟨rfl, fun h => Json.noConfusion h⟩

/-- Claim C1, amended: with the token configured and a dict body, the
handler selects the streaming branch exactly when the value of the
`stream` key (defaulting to `false` when absent) is truthy in Python's
sense — so not only the boolean `true` but any truthy value (`1`, a
non-empty string, ...) selects streaming, and every falsy value or an
absent key selects the buffered branch. -/
theorem C1_stream_flag_truthiness (tok : String) (htok : (tok == "") = false)
    (hdrs : List (String × String)) (fields : List (String × Json))
    (up : UpstreamResponse) :
    (proxy_to_chutes ⟨some tok⟩ ⟨hdrs, some (.obj fields)⟩ up).sent.map Prod.snd =
      [(dictGet fields "stream" (.bool false)).truthy] := by
  cases hs : (dictGet fields "stream" (.bool false)).truthy with
  | true =>
      rw [proxy_run_streaming tok htok hdrs fields hs up]
      rfl
  | false =>
      cases hj : up.jsonBody with
      | none =>
          rw [proxy_run_buffered_badjson tok htok hdrs fields hs up hj]
          rfl
      | some j =>
          rw [proxy_run_buffered tok htok hdrs fields hs up j hj]
          rfl

/-- Claim C1, witness: the amended theorem evaluated at the body
`{"stream": "false"}` — a truthy string, hence streaming. -/
theorem C1_stream_flag_truthiness_witness :
    ("k" == "") = false ∧
    (proxy_to_chutes ⟨some "k"⟩ ⟨[], some (.obj [("stream", .str "false")])⟩ upEx).sent.map
        Prod.snd =
      [(dictGet [("stream", Json.str "false")] "stream" (.bool false)).truthy] :=
  ⟨by decide, C1_stream_flag_truthiness "k" (by decide) [] [("stream", .str "false")] upEx⟩

/-- Claim C2: with the token configured and an inbound dict body whose
`stream` key holds the boolean `true`, the handler returns a streaming
response whose chunk list is exactly the upstream chunk list (same
chunks, same order, nothing added or dropped) and whose media type is
the upstream response's content-type header. -/
theorem C2_streaming_passthrough (tok : String) (htok : (tok == "") = false)
    (hdrs : List (String × String)) (fields : List (String × Json))
    (hs : fields.lookup "stream" = some (.bool true)) (up : UpstreamResponse) :
    (proxy_to_chutes ⟨some tok⟩ ⟨hdrs, some (.obj fields)⟩ up).result =
      .ok (.streamingResponse up.chunks (headersGet up.headers "content-type")) := by
  have hs' : (dictGet fields "stream" (.bool false)).truthy = true := by
    simp [dictGet, hs, Json.truthy]
  rw [proxy_run_streaming tok htok hdrs fields hs' up]

/-- Claim C2, witness: streaming run on the concrete upstream `upEx`
returns its two chunks in order with its content-type. -/
theorem C2_streaming_passthrough_witness :
    ("k" == "") = false ∧
    [("stream", Json.bool true)].lookup "stream" = some (Json.bool true) ∧
    (proxy_to_chutes ⟨some "k"⟩ ⟨[], some (.obj [("stream", .bool true)])⟩ upEx).result =
      .ok (.streamingResponse upEx.chunks (headersGet upEx.headers "content-type")) :=
  ⟨by decide, rfl,
    C2_streaming_passthrough "k" (by decide) [] [("stream", .bool true)] rfl upEx⟩

/-- Claim C3: with the token configured, an inbound dict body whose
`stream` key is absent or holds the boolean `false`, and an upstream
body parsing to `j`, the handler sends exactly one outbound request
and returns `j` unchanged. -/
theorem C3_buffered_relay (tok : String) (htok : (tok == "") = false)
    (hdrs : List (String × String)) (fields : List (String × Json))
    (hs : fields.lookup "stream" = none ∨ fields.lookup "stream" = some (.bool false))
    (up : UpstreamResponse) (j : Json) (hj : up.jsonBody = some j) :
    (proxy_to_chutes ⟨some tok⟩ ⟨hdrs, some (.obj fields)⟩ up).sent.length = 1 ∧
    (proxy_to_chutes ⟨some tok⟩ ⟨hdrs, some (.obj fields)⟩ up).result =
      .ok (.jsonValue j) := by
  have hs' : (dictGet fields "stream" (.bool false)).truthy = false := by
    rcases hs with h | h <;> simp [dictGet, h, Json.truthy]
  rw [proxy_run_buffered tok htok hdrs fields hs' up j hj]
  exact ⟨rfl, rfl⟩

/-- Claim C3, witness: a body without `stream` relayed against `upEx`
yields one send and `upEx`'s parsed JSON body. -/
theorem C3_buffered_relay_witness :
    ("k" == "") = false ∧
    ([("model", Json.str "X")].lookup "stream" = none ∨
      [("model", Json.str "X")].lookup "stream" = some (Json.bool false)) ∧
    upEx.jsonBody = some (.obj [("ok", .bool true)]) ∧
    (proxy_to_chutes ⟨some "k"⟩ ⟨[], some (.obj [("model", .str "X")])⟩ upEx).sent.length = 1 ∧
    (proxy_to_chutes ⟨some "k"⟩ ⟨[], some (.obj [("model", .str "X")])⟩ upEx).result =
      .ok (.jsonValue (.obj [("ok", .bool true)])) :=
  ⟨by decide, Or.inl rfl, rfl,
    C3_buffered_relay "k" (by decide) [] [("model", .str "X")] (Or.inl rfl) upEx
      (.obj [("ok", .bool true)]) rfl⟩

/-- Claim C4: with the token configured and a dict body, every run —
streaming or buffered, whatever the inbound headers — sends exactly
one outbound request: a POST to the fixed URL with a 300-second
timeout, the inbound JSON body unchanged, and exactly the two headers
`Content-Type: application/json` and `Authorization: Bearer <token>`. -/
theorem C4_outbound_request_shape (tok : String) (htok : (tok == "") = false)
    (hdrs : List (String × String)) (fields : List (String × Json))
    (up : UpstreamResponse) :
    (proxy_to_chutes ⟨some tok⟩ ⟨hdrs, some (.obj fields)⟩ up).sent.map Prod.fst =
      [{ method := "POST"
         url := CHUTES_API_URL
         jsonBody := .obj fields
         headers := [("Content-Type", "application/json"),
                     ("Authorization", "Bearer " ++ tok)]
         timeoutSeconds := 300 }] := by
  cases hs : (dictGet fields "stream" (.bool false)).truthy with
  | true =>
      rw [proxy_run_streaming tok htok hdrs fields hs up]
      rfl
  | false =>
      cases hj : up.jsonBody with
      | none =>
          rw [proxy_run_buffered_badjson tok htok hdrs fields hs up hj]
          rfl
      | some j =>
          rw [proxy_run_buffered tok htok hdrs fields hs up j hj]
          rfl

/-- Claim C4, witness: even with inbound headers carrying their own
authorization, the outbound request uses only the configured token. -/
theorem C4_outbound_request_shape_witness :
    ("k" == "") = false ∧
    (proxy_to_chutes ⟨some "k"⟩
        ⟨[("Authorization", "Bearer other"), ("X-Extra", "y")],
          some (.obj [("model", .str "X")])⟩ upEx).sent.map Prod.fst =
      [{ method := "POST"
         url := CHUTES_API_URL
         jsonBody := .obj [("model", .str "X")]
         headers := [("Content-Type", "application/json"),
                     ("Authorization", "Bearer " ++ "k")]
         timeoutSeconds := 300 }] :=
  ⟨by decide,
    C4_outbound_request_shape "k" (by decide)
      [("Authorization", "Bearer other"), ("X-Extra", "y")] [("model", .str "X")] upEx⟩

/-- Claim C5, counterexample.  The claim quantifies over every inbound
request, but with the token unset and a malformed (non-JSON) body the
handler raises the body-parse error at `request.json()`, not the
configuration `ValueError` — so "raises a configuration error" fails
for that input (no outbound call happens, as the claim also says). -/
theorem C5_counterexample :
    (proxy_to_chutes ⟨none⟩ ⟨[], none⟩ upEx).result = .error .jsonParseError ∧
    (proxy_to_chutes ⟨none⟩ ⟨[], none⟩ upEx).result ≠
      .error (.valueError "CHUTES_API_TOKEN not found in .env file.") ∧
    (proxy_to_chutes ⟨none⟩ ⟨[], none⟩ upEx).sent = [] :=
  ⟨rfl, fun h => HandlerError.noConfusion (Except.error.inj h), rfl⟩

/-- Claim C5, amended: if the token is unset or empty, no outbound
request is ever built or sent, for any inbound request; when the
inbound body parses as JSON the failure is the configuration
`ValueError` (raised before any network access), while a malformed
body fails earlier with the body-parse error. -/
theorem C5_no_token_no_outbound (t : Option String) (ht : optStrFalsy t = true)
    (hdrs : List (String × String)) (j : Json) (up : UpstreamResponse) :
    (proxy_to_chutes ⟨t⟩ ⟨hdrs, some j⟩ up).result =
      .error (.valueError "CHUTES_API_TOKEN not found in .env file.") ∧
    (proxy_to_chutes ⟨t⟩ ⟨hdrs, some j⟩ up).sent = [] ∧
    (proxy_to_chutes ⟨t⟩ ⟨hdrs, some j⟩ up).built = [] ∧
    (proxy_to_chutes ⟨t⟩ ⟨hdrs, none⟩ up).sent = [] ∧
    (proxy_to_chutes ⟨t⟩ ⟨hdrs, none⟩ up).built = [] := by
  rw [proxy_run_no_token t ht hdrs j up, proxy_run_malformed ⟨t⟩ hdrs up]
  exact ⟨rfl, rfl, rfl, rfl, rfl⟩

/-- Claim C5, witness: unset token, well-formed body. -/
theorem C5_no_token_no_outbound_witness :
    optStrFalsy none = true ∧
    (proxy_to_chutes ⟨none⟩ ⟨[], some (.obj [("model", .str "X")])⟩ upEx).result =
      .error (.valueError "CHUTES_API_TOKEN not found in .env file.") ∧
    (proxy_to_chutes ⟨none⟩ ⟨[], some (.obj [("model", .str "X")])⟩ upEx).sent = [] ∧
    (proxy_to_chutes ⟨none⟩ ⟨[], some (.obj [("model", .str "X")])⟩ upEx).built = [] ∧
    (proxy_to_chutes ⟨none⟩ ⟨[], none⟩ upEx).sent = [] ∧
    (proxy_to_chutes ⟨none⟩ ⟨[], none⟩ upEx).built = [] :=
  ⟨rfl,
    (C5_no_token_no_outbound none rfl [] (.obj [("model", .str "X")]) upEx).1,
    (C5_no_token_no_outbound none rfl [] (.obj [("model", .str "X")]) upEx).2.1,
    (C5_no_token_no_outbound none rfl [] (.obj [("model", .str "X")]) upEx).2.2.1,
    (C5_no_token_no_outbound none rfl [] (.obj [("model", .str "X")]) upEx).2.2.2.1,
    (C5_no_token_no_outbound none rfl [] (.obj [("model", .str "X")]) upEx).2.2.2.2⟩

/-- Claim C6: on the buffered (non-streaming) path with an upstream
body parsing to `j`, the handler returns `j` as a plain value, which
the serving layer delivers with status 200 — whatever the upstream's
actual HTTP status was.  The final conjunct makes the independence
explicit: replacing the upstream status by any value leaves the whole
run unchanged. -/
theorem C6_status_always_200 (tok : String) (htok : (tok == "") = false)
    (hdrs : List (String × String)) (fields : List (String × Json))
    (hs : (dictGet fields "stream" (.bool false)).truthy = false)
    (up : UpstreamResponse) (j : Json) (hj : up.jsonBody = some j) :
    (proxy_to_chutes ⟨some tok⟩ ⟨hdrs, some (.obj fields)⟩ up).result =
      .ok (.jsonValue j) ∧
    servedStatus (.jsonValue j) = 200 ∧
    (∀ s : Nat,
      proxy_to_chutes ⟨some tok⟩ ⟨hdrs, some (.obj fields)⟩ { up with status := s } =
        proxy_to_chutes ⟨some tok⟩ ⟨hdrs, some (.obj fields)⟩ up) := by
  refine ⟨?_, rfl, ?_⟩
  · rw [proxy_run_buffered tok htok hdrs fields hs up j hj]
  · intro s
    rw [proxy_run_buffered tok htok hdrs fields hs up j hj,
      proxy_run_buffered tok htok hdrs fields hs { up with status := s } j hj]

/-- Claim C6, witness: `upEx` has upstream status 502, yet the served
status is 200 and the run ignores the status entirely. -/
theorem C6_status_always_200_witness :
    ("k" == "") = false ∧
    (dictGet [("model", Json.str "X")] "stream" (.bool false)).truthy = false ∧
    upEx.jsonBody = some (.obj [("ok", .bool true)]) ∧
    ((proxy_to_chutes ⟨some "k"⟩ ⟨[], some (.obj [("model", .str "X")])⟩ upEx).result =
        .ok (.jsonValue (.obj [("ok", .bool true)])) ∧
      servedStatus (.jsonValue (.obj [("ok", .bool true)])) = 200 ∧
      (∀ s : Nat,
        proxy_to_chutes ⟨some "k"⟩ ⟨[], some (.obj [("model", .str "X")])⟩
            { upEx with status := s } =
          proxy_to_chutes ⟨some "k"⟩ ⟨[], some (.obj [("model", .str "X")])⟩ upEx)) :=
  ⟨by decide, rfl, rfl,
    C6_status_always_200 "k" (by decide) [] [("model", .str "X")] rfl upEx
      (.obj [("ok", .bool true)]) rfl⟩

/-- Claim C7: the unprefixed routes are exact aliases — the
`POST /chat/completions` handler produces the same run as
`POST /v1/chat/completions` on identical inputs, and `GET /models`
returns a body identical to `GET /v1/models`. -/
theorem C7_route_aliases :
    (∀ (env : Env) (request : InboundRequest) (upstream : UpstreamResponse),
      proxy_to_chutes_no_v1 env request upstream = proxy_to_chutes env request upstream) ∧
    get_manual_models_alias = get_manual_models :=
  ⟨fun _ _ _ => rfl, rfl⟩

/-- Claim C8: a malformed inbound body (the `request.json()` oracle
returns `none`) fails with the parse error; nothing is logged, no
outbound request is built, none is sent — for every environment and
upstream. -/
theorem C8_malformed_body_fails_first (env : Env) (hdrs : List (String × String))
    (up : UpstreamResponse) :
    (proxy_to_chutes env ⟨hdrs, none⟩ up).result = .error .jsonParseError ∧
    (proxy_to_chutes env ⟨hdrs, none⟩ up).built = [] ∧
    (proxy_to_chutes env ⟨hdrs, none⟩ up).sent = [] ∧
    (proxy_to_chutes env ⟨hdrs, none⟩ up).log = [] :=
  ⟨rfl, rfl, rfl, rfl⟩

/-- Claim C9: with the token configured, a body that parses to a
non-object JSON value (array, string, number, boolean or null) makes
the `.get("stream", ...)` call raise `AttributeError`; at that point
the body has already been parsed and logged, but no outbound request
has been built or sent. -/
theorem C9_non_object_body (tok : String) (htok : (tok == "") = false)
    (hdrs : List (String × String)) (j : Json) (hj : j.isObj = false)
    (up : UpstreamResponse) :
    (proxy_to_chutes ⟨some tok⟩ ⟨hdrs, some j⟩ up).result =
      .error (.attributeError "get") ∧
    (proxy_to_chutes ⟨some tok⟩ ⟨hdrs, some j⟩ up).log =
      [.requestData j, .usingApiKey] ∧
    (proxy_to_chutes ⟨some tok⟩ ⟨hdrs, some j⟩ up).built = [] ∧
    (proxy_to_chutes ⟨some tok⟩ ⟨hdrs, some j⟩ up).sent = [] := by
  rw [proxy_run_non_obj tok htok hdrs j hj up]
  exact ⟨rfl, rfl, rfl, rfl⟩

/-- Claim C9, witness: the JSON array body `[1]`. -/
theorem C9_non_object_body_witness :
    ("k" == "") = false ∧
    (Json.arr [.num 1]).isObj = false ∧
    (proxy_to_chutes ⟨some "k"⟩ ⟨[], some (.arr [.num 1])⟩ upEx).result =
      .error (.attributeError "get") ∧
    (proxy_to_chutes ⟨some "k"⟩ ⟨[], some (.arr [.num 1])⟩ upEx).log =
      [.requestData (.arr [.num 1]), .usingApiKey] ∧
    (proxy_to_chutes ⟨some "k"⟩ ⟨[], some (.arr [.num 1])⟩ upEx).built = [] ∧
    (proxy_to_chutes ⟨some "k"⟩ ⟨[], some (.arr [.num 1])⟩ upEx).sent = [] :=
  ⟨by decide, rfl,
    (C9_non_object_body "k" (by decide) [] (.arr [.num 1]) rfl upEx).1,
    (C9_non_object_body "k" (by decide) [] (.arr [.num 1]) rfl upEx).2.1,
    (C9_non_object_body "k" (by decide) [] (.arr [.num 1]) rfl upEx).2.2.1,
    (C9_non_object_body "k" (by decide) [] (.arr [.num 1]) rfl upEx).2.2.2⟩

/-- Claim C10: the token is read from the call-time environment on
every handler invocation, not at startup.  Module initialization is
independent of the token (the process starts with it absent); when the
token is missing, the parsed body is still logged — `requestData`
precedes the error event in the log — before the configuration
`ValueError` is raised with nothing sent; and the same inbound request
against an environment holding a token gets past the check (it can no
longer raise the configuration error). -/
theorem C10_lazy_per_request_token (t : String) (ht : (t == "") = false)
    (hdrs : List (String × String)) (j : Json) (up : UpstreamResponse) :
    appInit ⟨none⟩ = appInit ⟨some t⟩ ∧
    (proxy_to_chutes ⟨none⟩ ⟨hdrs, some j⟩ up).log =
      [.requestData j, .errorTokenMissing] ∧
    (proxy_to_chutes ⟨none⟩ ⟨hdrs, some j⟩ up).result =
      .error (.valueError "CHUTES_API_TOKEN not found in .env file.") ∧
    (proxy_to_chutes ⟨none⟩ ⟨hdrs, some j⟩ up).sent = [] ∧
    (proxy_to_chutes ⟨some t⟩ ⟨hdrs, some j⟩ up).result ≠
      .error (.valueError "CHUTES_API_TOKEN not found in .env file.") := by
  refine ⟨rfl, ?_, ?_, ?_, ?_⟩
  · rw [proxy_run_no_token none rfl hdrs j up]
  · rw [proxy_run_no_token none rfl hdrs j up]
  · rw [proxy_run_no_token none rfl hdrs j up]
  · exact token_present_no_config_error t ht hdrs (some j) up
      "CHUTES_API_TOKEN not found in .env file."

/-- Claim C10, witness: a concrete body logged before the missing
token error; the same body with a token present proceeds. -/
theorem C10_lazy_per_request_token_witness :
    ("k" == "") = false ∧
    (appInit ⟨none⟩ = appInit ⟨some "k"⟩ ∧
      (proxy_to_chutes ⟨none⟩ ⟨[], some (.obj [("model", .str "X")])⟩ upEx).log =
        [.requestData (.obj [("model", .str "X")]), .errorTokenMissing] ∧
      (proxy_to_chutes ⟨none⟩ ⟨[], some (.obj [("model", .str "X")])⟩ upEx).result =
        .error (.valueError "CHUTES_API_TOKEN not found in .env file.") ∧
      (proxy_to_chutes ⟨none⟩ ⟨[], some (.obj [("model", .str "X")])⟩ upEx).sent = [] ∧
      (proxy_to_chutes ⟨some "k"⟩ ⟨[], some (.obj [("model", .str "X")])⟩ upEx).result ≠
        .error (.valueError "CHUTES_API_TOKEN not found in .env file.")) :=
  ⟨by decide,
    C10_lazy_per_request_token "k" (by decide) [] (.obj [("model", .str "X")]) upEx⟩

end ChutesProxy
